import Mathlib

/-!
Verification of the Not You kiosk installation core: the prompt mapper
(src/data/form_mapping.py with the schema from config.py), the application
state store (src/data/state.py), and the generation client's worker,
cancellation and retry logic (src/api/client.py), together with the
operation sequences performed by the coordinator (src/ui/main_screen.py).

Python dictionaries are embedded as association lists in insertion order
(`List (String × String)`), with Python's `d[k]` / `k in d` realised by
`List.lookup`. Machine-level concerns (actual HTTP, threads, wall-clock
sleeping) are modelled by explicit parameters: attempt outcomes, an
interleaving point for `cancel_pending_requests`, and a counter of sleeps.
-/

/-! ## Configuration constants (config.py) -/

/-- Schema entry for one demographic field: display label, option labels
(including the sentinel "?") and the option-to-phrase mapping
(config.py, `DEMOGRAPHICS_FIELDS`). -/
structure FieldConfig where
  label : String
  options : List String
  prompt_mapping : List (String × String)
deriving DecidableEq

/-- config.py `PROMPT_PREFIX`. -/
def PROMPT_PREFIX_STR : String := "professional portrait photograph of a"

/-- config.py `PROMPT_SUFFIX`. -/
def PROMPT_SUFFIX_STR : String := "person, high quality, detailed, realistic, photographic style"

/-- config.py `MAX_RETRIES`. -/
def MAX_RETRIES : Nat := 3

/-- config.py `DEFAULT_SEED`. -/
def DEFAULT_SEED : Int := 888

/-- config.py `DEMOGRAPHICS_FIELDS`, transcribed in order. -/
def DEMOGRAPHICS_FIELDS : List (String × FieldConfig) :=
  [ ("age",
     { label := "Age",
       options := ["?", "Child", "Teen", "Young Adult", "Middle-Aged", "Senior"],
       prompt_mapping :=
         [("Child", "child"), ("Teen", "teenager"), ("Young Adult", "young adult"),
          ("Middle-Aged", "middle-aged"), ("Senior", "elderly")] }),
    ("gender",
     { label := "Gender",
       options := ["?", "Male", "Female"],
       prompt_mapping := [("Male", "male"), ("Female", "female")] }),
    ("ethnicity",
     { label := "Ethnicity",
       options := ["?", "White", "Asian", "American Indian", "Black or African American",
                   "Hispanic Latino or Spanish origin", "Middle Eastern or North African",
                   "Native Hawaiian or Other Pacific Islander", "Other"],
       prompt_mapping :=
         [("White", "caucasian"), ("Asian", "asian"), ("American Indian", "native american"),
          ("Black or African American", "african american"),
          ("Hispanic Latino or Spanish origin", "hispanic"),
          ("Middle Eastern or North African", "middle eastern"),
          ("Native Hawaiian or Other Pacific Islander", "pacific islander"),
          ("Other", "mixed ethnicity")] }),
    ("education",
     { label := "Education",
       options := ["?", "Some schooling", "High school", "College",
                   "Graduate / professional degree"],
       prompt_mapping :=
         [("Some schooling", "with basic education"),
          ("High school", "with high school education"),
          ("College", "college educated"),
          ("Graduate / professional degree", "highly educated professional")] }),
    ("employment",
     { label := "Employment",
       options := ["?", "Unemployed", "Student", "Part-time", "Full-time", "Retired"],
       prompt_mapping :=
         [("Unemployed", "unemployed"), ("Student", "student"),
          ("Part-time", "part-time worker"), ("Full-time", "professional worker"),
          ("Retired", "retired")] }),
    ("income",
     { label := "Income",
       options := ["?", "$0–$24,999", "$25,000–$49,999", "$50,000–$99,999",
                   "$100,000–$199,999", "$200,000+"],
       prompt_mapping :=
         [("$0–$24,999", "low income"), ("$25,000–$49,999", "modest income"),
          ("$50,000–$99,999", "middle class"), ("$100,000–$199,999", "upper middle class"),
          ("$200,000+", "wealthy")] }) ]

/-! ## Prompt mapper (src/data/form_mapping.py, `FormToPromptMapper`) -/

/-- The mapper's instance data: the schema and the prefix/suffix frame
(`FormToPromptMapper.__init__`). -/
structure FormToPromptMapper where
  fields : List (String × FieldConfig)
  prefixText : String
  suffixText : String

/-- The mapper as constructed from config.py. -/
def mapper : FormToPromptMapper :=
  { fields := DEMOGRAPHICS_FIELDS,
    prefixText := PROMPT_PREFIX_STR,
    suffixText := PROMPT_SUFFIX_STR }

/-- `FormToPromptMapper.map_selection_to_prompt`: none for an unknown field or
the sentinel "?"; a missing phrase mapping falls back to the lowercased
selection. -/
def FormToPromptMapper.map_selection_to_prompt (m : FormToPromptMapper)
    (field_name selection : String) : Option String :=
  match m.fields.lookup field_name with
  | none => none
  | some fc =>
    if selection = "?" then none
    else
      match fc.prompt_mapping.lookup selection with
      | some t => some t
      | none => some selection.toLower

/-- The canonical order walked first in `build_prompt` (`field_order`). -/
def field_order : List String :=
  ["age", "gender", "ethnicity", "education", "employment", "income"]

/-- Python's truthiness filter on a mapped phrase (`if mapped_text:`):
keeps it only when present and non-empty. -/
def truthyCheck : Option String → Option String
  | some t => if t = "" then none else some t
  | none => none

/-- The descriptor list assembled by `build_prompt` (its two loops):
canonical fields first, then the remaining entries of the selections map in
insertion order, each passed through `map_selection_to_prompt` and the
truthiness check. -/
def FormToPromptMapper.build_descriptors (m : FormToPromptMapper)
    (form_data : List (String × String)) : List String :=
  field_order.filterMap (fun field_name =>
    match form_data.lookup field_name with
    | some selection => truthyCheck (m.map_selection_to_prompt field_name selection)
    | none => none)
  ++ form_data.filterMap (fun entry =>
    if field_order.contains entry.1 then none
    else truthyCheck (m.map_selection_to_prompt entry.1 entry.2))

/-- Python `list.insert(-1, x)`: inserts before the last element
(used for the "person" fallback when a suffix is configured). -/
def insert_before_last (l : List String) (x : String) : List String :=
  l.dropLast ++ [x] ++ l.drop (l.length - 1)

/-- `FormToPromptMapper.build_prompt`: prefix (if non-empty), the joined
descriptors (if any), suffix (if non-empty); if only prefix and suffix were
collected, the literal "person" is inserted before the suffix; all joined by
single spaces. -/
def FormToPromptMapper.build_prompt (m : FormToPromptMapper)
    (form_data : List (String × String)) : String :=
  let parts1 : List String := if m.prefixText ≠ "" then [m.prefixText] else []
  let descriptors := m.build_descriptors form_data
  let parts2 :=
    if descriptors ≠ [] then parts1 ++ [String.intercalate " " descriptors] else parts1
  let parts3 := if m.suffixText ≠ "" then parts2 ++ [m.suffixText] else parts2
  let parts4 :=
    if parts3.length ≤ 2 then
      if m.suffixText ≠ "" then insert_before_last parts3 "person" else parts3 ++ ["person"]
    else parts3
  String.intercalate " " parts4

/-! ## Application state (src/data/state.py, `ApplicationState`)

The Python class keeps its data in a `self._state` dictionary whose keys are
fixed by `__init__` and the setters; it is embedded as a structure with one
field per key. The `current_seed` field and its three operations appear in
this repository only through their tests (test_remix.py) and callers
(src/api/client.py, src/ui/image_panel.py) — state.py does not define them —
so they are modelled from the spec (§3, §4.2), with the randomness source as
an explicit parameter. -/

/-- ApplicationState's stored fields. Image bytes and timestamps are opaque
here. The `current_seed` field is modelled from the spec (see above). -/
structure ApplicationState where
  form_data : List (String × String)
  current_image : Option String
  current_prompt : String
  generating_image : Bool
  api_status : String
  last_generation_time : Option Nat
  current_seed : Int
deriving DecidableEq

/-- `ApplicationState.__init__` defaults. The seed's initial value is
modelled from the spec and test_remix.py (`DEFAULT_SEED`). -/
def ApplicationState.init : ApplicationState :=
  { form_data := []
    current_image := none
    current_prompt := ""
    generating_image := false
    api_status := "idle"
    last_generation_time := none
    current_seed := DEFAULT_SEED }

/-- `reset_form_data`: restores the six-field map of sentinels. -/
def ApplicationState.reset_form_data (st : ApplicationState) : ApplicationState :=
  { st with form_data :=
      [("age", "?"), ("gender", "?"), ("ethnicity", "?"),
       ("education", "?"), ("employment", "?"), ("income", "?")] }

/-- Python dictionary assignment `d[k] = v`: replaces the value in place when
the key is present, appends otherwise. -/
def dictInsert (l : List (String × String)) (k v : String) : List (String × String) :=
  if (l.lookup k).isSome then
    l.map (fun p => if p.1 = k then (k, v) else p)
  else l ++ [(k, v)]

/-- `update_form_field`: sets one entry of form_data. -/
def ApplicationState.update_form_field (st : ApplicationState)
    (field_name value : String) : ApplicationState :=
  { st with form_data := dictInsert st.form_data field_name value }

/-- `get_form_data`: snapshot copy of the stored selections. -/
def ApplicationState.get_form_data (st : ApplicationState) : List (String × String) :=
  st.form_data

/-- `set_form_data`: stores a copy of the given map verbatim. -/
def ApplicationState.set_form_data (st : ApplicationState)
    (fd : List (String × String)) : ApplicationState :=
  { st with form_data := fd }

/-- `get_form_field`. -/
def ApplicationState.get_form_field (st : ApplicationState) (field_name : String) :
    Option String :=
  st.form_data.lookup field_name

/-- `get_current_image`. -/
def ApplicationState.get_current_image (st : ApplicationState) : Option String :=
  st.current_image

/-- `set_current_image`. -/
def ApplicationState.set_current_image (st : ApplicationState)
    (image_data : Option String) : ApplicationState :=
  { st with current_image := image_data }

/-- `get_current_prompt`. -/
def ApplicationState.get_current_prompt (st : ApplicationState) : String :=
  st.current_prompt

/-- `set_current_prompt`. -/
def ApplicationState.set_current_prompt (st : ApplicationState) (p : String) :
    ApplicationState :=
  { st with current_prompt := p }

/-- `get_api_status`. -/
def ApplicationState.get_api_status (st : ApplicationState) : String :=
  st.api_status

/-- `set_api_status`. -/
def ApplicationState.set_api_status (st : ApplicationState) (status : String) :
    ApplicationState :=
  { st with api_status := status }

/-- `set_generating_image`. -/
def ApplicationState.set_generating_image (st : ApplicationState) (b : Bool) :
    ApplicationState :=
  { st with generating_image := b }

/-- `get_last_generation_time`. -/
def ApplicationState.get_last_generation_time (st : ApplicationState) : Option Nat :=
  st.last_generation_time

/-- `set_last_generation_time`. -/
def ApplicationState.set_last_generation_time (st : ApplicationState)
    (t : Option Nat) : ApplicationState :=
  { st with last_generation_time := t }

/-- `has_any_selections`: some stored value differs from the sentinel. -/
def ApplicationState.has_any_selections (st : ApplicationState) : Bool :=
  st.get_form_data.any (fun p => p.2 ≠ "?")

/-- Modelled from the spec: `get_current_seed` (state.py does not define the
seed operations; only test_remix.py and the API client use them). -/
def ApplicationState.get_current_seed (st : ApplicationState) : Int :=
  st.current_seed

/-- Modelled from the spec: `set_current_seed`. -/
def ApplicationState.set_current_seed (st : ApplicationState) (n : Int) :
    ApplicationState :=
  { st with current_seed := n }

/-- Modelled from the spec: `generate_new_random_seed` picks a fresh integer
in a wide positive range — supplied here by the `randomValue` parameter, the
mocked randomness source of §8 — stores it, and returns it. -/
def ApplicationState.generate_new_random_seed (st : ApplicationState)
    (randomValue : Int) : Int × ApplicationState :=
  (randomValue, { st with current_seed := randomValue })

/-- The non-sentinel entries of a selections map, following the spec's words
in §3/§8: "the state normalizes by storing only non-sentinel entries" /
"a map equal to the non-sentinel entries of X". Used to compare the stored
form data against the spec's claimed normalization. -/
def specNonSentinelEntries (l : List (String × String)) : List (String × String) :=
  l.filter (fun p => p.2 ≠ "?")

/-! ## State operations as a transition system

The reachable states of the store are those produced by running a sequence
of public operations from the initial state; this is what the invariants of
spec §3 quantify over. -/

/-- One public mutating operation of `ApplicationState`. The seed value for
`generateNewRandomSeed` carries the drawn random number. -/
inductive StateOp where
  | resetFormData
  | updateFormField (field_name value : String)
  | setFormData (fd : List (String × String))
  | setCurrentImage (i : Option String)
  | setCurrentPrompt (p : String)
  | setApiStatus (s : String)
  | setGeneratingImage (b : Bool)
  | setLastGenerationTime (t : Option Nat)
  | setCurrentSeed (n : Int)
  | generateNewRandomSeed (r : Int)
deriving DecidableEq

/-- Effect of one operation on the state. -/
def StateOp.apply : StateOp → ApplicationState → ApplicationState
  | .resetFormData, st => st.reset_form_data
  | .updateFormField f v, st => st.update_form_field f v
  | .setFormData fd, st => st.set_form_data fd
  | .setCurrentImage i, st => st.set_current_image i
  | .setCurrentPrompt p, st => st.set_current_prompt p
  | .setApiStatus s, st => st.set_api_status s
  | .setGeneratingImage b, st => st.set_generating_image b
  | .setLastGenerationTime t, st => st.set_last_generation_time t
  | .setCurrentSeed n, st => st.set_current_seed n
  | .generateNewRandomSeed r, st => (st.generate_new_random_seed r).2

/-- Runs a sequence of operations left to right. -/
def runOps (ops : List StateOp) (st : ApplicationState) : ApplicationState :=
  ops.foldl (fun s op => op.apply s) st

/-- Recognizes `set_api_status` calls. -/
def StateOp.isSetApiStatus : StateOp → Bool
  | .setApiStatus _ => true
  | _ => false

/-- The operation sequence MainScreen performs for a form change: the test
hook sets form data (`_test_image_generation`), `_on_state_change` builds
and stores the prompt, and `_generate_image_async` raises the generating
flag. No `set_api_status` call occurs anywhere in the UI code. -/
def mainScreenGenerationSeq : List StateOp :=
  [ .setFormData [("gender", "Male")],
    .setCurrentPrompt (mapper.build_prompt [("gender", "Male")]),
    .setGeneratingImage true ]

/-! ## Generation client (src/api/client.py)

`_generate_image_worker` runs sequentially on its own thread; the only
interference from other threads is `cancel_pending_requests` clearing the
active-set. For one job, active-set membership is monotone: the id is added
once at submission and never re-added (ids strictly increase), so the
worker's activity checks read `true` up to the moment the cancel completes
and `false` afterwards. The worker's execution is therefore modelled as a
list of numbered atomic actions, and a cancellation is an index `k`:
`cancel_pending_requests` returns between the worker's action `k - 1` and
action `k`, so a check at action `i` reads active exactly when `i < k`.
`cancelAt = none` means the job is never cancelled. -/

/-- The JSON body of a 200 response: `images` is present or absent, and is a
list of base64 strings. -/
structure ResponseData where
  images : Option (List String)
deriving DecidableEq

/-- A user-visible callback invocation made by the worker. -/
inductive CallbackEv where
  | success (b : String)
  | error (msg : String)
deriving DecidableEq

/-- Worker message for a response without images (client.py line 112). -/
def NO_IMAGES_MSG : String := "No images in API response"

/-- `_process_image_response` wraps its internal failures
(client.py line 243), truncating the inner message to 100 characters. -/
def PROC_ERR_MSG (inner : String) : String :=
  "Error processing image response: " ++ inner.take 100

/-- Activity read at worker action `i` for a cancellation completing just
before action `cancelAt` (`_is_request_active`). -/
def activeAtStep (cancelAt : Option Nat) (i : Nat) : Bool :=
  match cancelAt with
  | none => true
  | some k => decide (i < k)

/-- `_generate_image_worker`, given the result of `_make_api_request`
(`.error e` when the request raised after its retries, `.ok` otherwise),
whether the caller's `on_success` callback itself raises (`osRaises`, with
message `osErrMsg`), and the base64 decoder `b64`. Returns the callback
invocations the worker performs, each tagged with the index of the atomic
action that performs it. Action indices, in the order the worker executes
them on each path: the pre-start check (line 83), the pre-request check
(line 91); then on a raising request the except-clause check (line 116) and
`on_error`; on a returned request the post-request check (line 99), then
either the final pre-callback check (line 108) followed by `on_success`
(and, if that raises, the except-clause check and `on_error`), or — when the
response has no images — the raise, the except-clause check and `on_error`. -/
def workerRun (cancelAt : Option Nat) (reqResult : Except String (Option ResponseData))
    (osRaises : Bool) (osErrMsg : String) (b64 : String → String) :
    List (Nat × CallbackEv) :=
  let act := activeAtStep cancelAt
  if !act 0 then []
  else if !act 1 then []
  else
    match reqResult with
    | .error e => if act 2 then [(3, .error e)] else []
    | .ok rd =>
      if !act 2 then []
      else
        match rd with
        | none => if act 3 then [(4, .error NO_IMAGES_MSG)] else []
        | some r =>
          match r.images with
          | none => if act 3 then [(4, .error NO_IMAGES_MSG)] else []
          | some [] => if act 3 then [(4, .error (PROC_ERR_MSG "No images in response"))] else []
          | some (img :: _) =>
            if !act 3 then []
            else
              (4, .success (b64 img)) ::
                (if osRaises then (if act 5 then [(6, .error osErrMsg)] else []) else [])

/-- Outcome of one `requests.post` attempt inside `_make_api_request`. -/
inductive AttemptOutcome where
  | ok (data : ResponseData)
  | badStatus (code : Nat)
  | timeout
  | connError
deriving DecidableEq

/-- True for the attempt outcomes the retry loop treats as failures. -/
def AttemptOutcome.isFailure : AttemptOutcome → Bool
  | .ok _ => false
  | _ => true

/-- Error message for a final non-200 attempt (client.py line 190). -/
def STATUS_ERR_MSG (code : Nat) : String :=
  "API request failed with status " ++ toString code

/-- Error message for a final timeout (client.py line 201). -/
def TIMEOUT_ERR_MSG : String := "API request timed out after all retries"

/-- Error message for a final connection failure (client.py line 208). -/
def CONN_ERR_MSG : String := "Could not connect to API after all retries"

/-- The retry loop of `_make_api_request`, from attempt `i` with `fuel`
iterations left. `activeAt i` is the activity read during attempt `i` and
`outcome i` the result of its HTTP post. Returns the function's result
(`.error` when it raises, `.ok none` when it returns `None` after a
cancellation or loop exhaustion, `.ok (some d)` on a 200 body `d`), paired
with the number of HTTP attempts performed and the number of
`REQUEST_DELAY` sleeps taken between attempts (line 218). -/
def makeApiGo (activeAt : Nat → Bool) (outcome : Nat → AttemptOutcome) :
    Nat → Nat → Except String (Option ResponseData) × Nat × Nat
  | _, 0 => (.ok none, 0, 0)
  | i, fuel + 1 =>
    if !activeAt i then (.ok none, 0, 0)
    else
      match outcome i with
      | .ok d => (.ok (some d), 1, 0)
      | .badStatus c =>
        if i = MAX_RETRIES - 1 then (.error (STATUS_ERR_MSG c), 1, 0)
        else
          let rest := makeApiGo activeAt outcome (i + 1) fuel
          (rest.1, rest.2.1 + 1, rest.2.2 + if activeAt i then 1 else 0)
      | .timeout =>
        if i = MAX_RETRIES - 1 then (.error TIMEOUT_ERR_MSG, 1, 0)
        else
          let rest := makeApiGo activeAt outcome (i + 1) fuel
          (rest.1, rest.2.1 + 1, rest.2.2 + if activeAt i then 1 else 0)
      | .connError =>
        if i = MAX_RETRIES - 1 then (.error CONN_ERR_MSG, 1, 0)
        else
          let rest := makeApiGo activeAt outcome (i + 1) fuel
          (rest.1, rest.2.1 + 1, rest.2.2 + if activeAt i then 1 else 0)

/-- `_make_api_request`: the retry loop over `range(MAX_RETRIES)`. -/
def makeApiRequest (activeAt : Nat → Bool) (outcome : Nat → AttemptOutcome) :
    Except String (Option ResponseData) × Nat × Nat :=
  makeApiGo activeAt outcome 0 MAX_RETRIES

/-- An activity function for a job that is never cancelled. -/
def allActive : Nat → Bool := fun _ => true

deriving instance DecidableEq for Except

example :
    makeApiRequest allActive
      (fun i => if i < 2 then .badStatus 502 else .ok { images := some ["AAAA"] }) =
      (.ok (some { images := some ["AAAA"] }), 3, 2) := by
  decide

example :
    (makeApiRequest allActive (fun _ => .timeout)).1 = .error TIMEOUT_ERR_MSG := by
  decide

example :
    workerRun (some 4) (.ok (some { images := some ["AAAA"] })) false "cb" (fun s => s) =
      [(4, .success "AAAA")] := by
  decide

example :
    workerRun none (.ok (some { images := some ["AAAA"] })) true "cb" (fun s => s) =
      [(4, .success "AAAA"), (6, .error "cb")] := by
  decide

example :
    mapper.build_prompt [] =
      "professional portrait photograph of a person person, high quality, detailed, realistic, photographic style" := by
  decide

example :
    (runOps mainScreenGenerationSeq ApplicationState.init).generating_image = true ∧
    (runOps mainScreenGenerationSeq ApplicationState.init).get_api_status = "idle" := by
  decide

/-! ## Lemmas about the prompt mapper -/

/-- Unfolding `List.lookup` one cons at a time, with a propositional guard. -/
theorem lookup_cons_eq_ite {β : Type} (a k : String) (b : β) (es : List (String × β)) :
    ((k, b) :: es).lookup a = if a = k then some b else es.lookup a := by
  simp [List.lookup]
  rcases hb : a == k with _ | _
  · simp only [beq_eq_false_iff_ne, ne_eq] at hb
    simp [hb]
  · simp only [beq_iff_eq] at hb
    simp [hb]

/-- A key outside a list's first components looks up to nothing. -/
theorem lookup_eq_none_of_not_mem_keys {β : Type} (f : String) :
    ∀ l : List (String × β), f ∉ l.map Prod.fst → l.lookup f = none := by
  intro l
  induction l with
  | nil => intro _; rfl
  | cons p t ih =>
    intro h
    obtain ⟨k, v⟩ := p
    simp only [List.map_cons, List.mem_cons] at h
    push_neg at h
    rw [lookup_cons_eq_ite, if_neg h.1]
    exact ih h.2

/-- The schema has exactly the six canonical fields, so a field id outside
`field_order` is unknown to the mapper. -/
theorem lookup_fields_eq_none (f : String) (h : field_order.contains f = false) :
    DEMOGRAPHICS_FIELDS.lookup f = none := by
  simp [field_order, List.contains] at h
  obtain ⟨h1, h2, h3, h4, h5, h6⟩ := h
  simp [DEMOGRAPHICS_FIELDS, lookup_cons_eq_ite, h1, h2, h3, h4, h5, h6]

/-- `map_selection_to_prompt` yields nothing for a field id outside the
canonical six. -/
theorem map_selection_unknown_field (f sel : String)
    (h : field_order.contains f = false) :
    mapper.map_selection_to_prompt f sel = none := by
  unfold FormToPromptMapper.map_selection_to_prompt
  rw [show mapper.fields = DEMOGRAPHICS_FIELDS from rfl, lookup_fields_eq_none f h]

/-- `map_selection_to_prompt` yields nothing for the sentinel selection. -/
theorem map_selection_sentinel (m : FormToPromptMapper) (f : String) :
    m.map_selection_to_prompt f "?" = none := by
  unfold FormToPromptMapper.map_selection_to_prompt
  cases m.fields.lookup f <;> simp

/-- The second loop of `build_prompt` — over entries whose field id is not in
`field_order` — contributes no descriptors, because every such field id is
unknown to the schema. -/
theorem extra_descriptors_nil (fd : List (String × String)) :
    (fd.filterMap (fun entry =>
      if field_order.contains entry.1 then none
      else truthyCheck (mapper.map_selection_to_prompt entry.1 entry.2))) = [] := by
  rw [List.filterMap_eq_nil_iff]
  intro entry _
  cases hc : field_order.contains entry.1 with
  | true => rfl
  | false =>
    show truthyCheck (mapper.map_selection_to_prompt entry.1 entry.2) = none
    rw [map_selection_unknown_field entry.1 entry.2 hc]
    rfl

/-- Lookup in a selections map with the sentinel collapsed to "absent": the
only part of the map `build_prompt` can observe. -/
def nonSentinelLookup (l : List (String × String)) (f : String) : Option String :=
  match l.lookup f with
  | some v => if v = "?" then none else some v
  | none => none

/-- The canonical-field loop body of `build_prompt` observes only the
non-sentinel lookup: a sentinel-valued entry behaves like an absent one. -/
theorem canonical_body_eq_ns (S : List (String × String)) (f : String) :
    (match S.lookup f with
     | some sel => truthyCheck (mapper.map_selection_to_prompt f sel)
     | none => none) =
    (match nonSentinelLookup S f with
     | some sel => truthyCheck (mapper.map_selection_to_prompt f sel)
     | none => none) := by
  unfold nonSentinelLookup
  cases hS : S.lookup f with
  | none => rfl
  | some v =>
    by_cases hv : v = "?"
    · simp [hv, map_selection_sentinel, truthyCheck]
    · simp [hv]

/-- `build_descriptors` over the schema mapper reduces to the canonical walk
over the non-sentinel lookups. -/
theorem build_descriptors_eq_ns (S : List (String × String)) :
    mapper.build_descriptors S =
      field_order.filterMap (fun f =>
        match nonSentinelLookup S f with
        | some sel => truthyCheck (mapper.map_selection_to_prompt f sel)
        | none => none) := by
  unfold FormToPromptMapper.build_descriptors
  rw [extra_descriptors_nil, List.append_nil]
  exact List.filterMap_congr (fun f _ => canonical_body_eq_ns S f)

/-- Two selections maps with the same non-sentinel lookups produce the same
prompt. -/
theorem build_prompt_eq_of_ns_eq (S T : List (String × String))
    (h : ∀ f, nonSentinelLookup S f = nonSentinelLookup T f) :
    mapper.build_prompt S = mapper.build_prompt T := by
  have hd : mapper.build_descriptors S = mapper.build_descriptors T := by
    rw [build_descriptors_eq_ns, build_descriptors_eq_ns]
    exact List.filterMap_congr (fun f _ => by rw [h f])
  unfold FormToPromptMapper.build_prompt
  rw [hd]

/-- Permuting an association list with distinct keys does not change any
lookup: the insertion order of a Python dictionary is invisible to `[]`. -/
theorem perm_lookup_eq {β : Type} {S T : List (String × β)} (hperm : S.Perm T)
    (hnd : (S.map Prod.fst).Nodup) (f : String) : S.lookup f = T.lookup f := by
  revert hnd
  induction hperm with
  | nil => intro _; rfl
  | cons x p ih =>
    intro hnd
    obtain ⟨k, v⟩ := x
    rw [lookup_cons_eq_ite, lookup_cons_eq_ite]
    by_cases hf : f = k
    · simp [hf]
    · rw [if_neg hf, if_neg hf]
      exact ih (List.Nodup.of_cons hnd)
  | swap x y l =>
    intro hnd
    obtain ⟨a, va⟩ := y
    obtain ⟨b, vb⟩ := x
    have hab : a ≠ b := by
      simp only [List.map_cons, List.nodup_cons, List.mem_cons] at hnd
      push_neg at hnd
      exact hnd.1.1
    rw [lookup_cons_eq_ite, lookup_cons_eq_ite, lookup_cons_eq_ite, lookup_cons_eq_ite]
    by_cases hfa : f = a
    · rw [if_pos hfa, if_neg (by rw [hfa]; exact hab), if_pos hfa]
    · rw [if_neg hfa]
      by_cases hfb : f = b
      · rw [if_pos hfb, if_pos hfb]
      · rw [if_neg hfb, if_neg hfb, if_neg hfa]
  | trans p1 p2 ih1 ih2 =>
    intro hnd
    exact (ih1 hnd).trans (ih2 (((p1.map Prod.fst).nodup_iff).mp hnd))

/-- For an association list with distinct keys, the sentinel-collapsed lookup
coincides with lookup in the sentinel-filtered list. -/
theorem ns_lookup_eq_filter_lookup (S : List (String × String))
    (hnd : (S.map Prod.fst).Nodup) (f : String) :
    nonSentinelLookup S f = (specNonSentinelEntries S).lookup f := by
  induction S with
  | nil => rfl
  | cons p t ih =>
    obtain ⟨k, v⟩ := p
    simp only [List.map_cons, List.nodup_cons] at hnd
    have hndt := hnd.2
    have hknot : k ∉ t.map Prod.fst := hnd.1
    by_cases hv : v = "?"
    · have hfil : specNonSentinelEntries ((k, v) :: t) = specNonSentinelEntries t := by
        simp [specNonSentinelEntries, List.filter, hv]
      rw [hfil]
      by_cases hf : f = k
      · have h1 : nonSentinelLookup ((k, v) :: t) f = none := by
          unfold nonSentinelLookup
          rw [lookup_cons_eq_ite, if_pos hf]
          simp [hv]
        have h2 : (specNonSentinelEntries t).lookup f = none := by
          apply lookup_eq_none_of_not_mem_keys
          intro hmem
          rw [hf] at hmem
          apply hknot
          obtain ⟨p, hp, hp1⟩ := List.mem_map.mp hmem
          exact List.mem_map.mpr ⟨p, List.mem_of_mem_filter hp, hp1⟩
        rw [h1, h2]
      · have h1 : nonSentinelLookup ((k, v) :: t) f = nonSentinelLookup t f := by
          unfold nonSentinelLookup
          rw [lookup_cons_eq_ite, if_neg hf]
        rw [h1]
        exact ih hndt
    · have hfil : specNonSentinelEntries ((k, v) :: t) =
          (k, v) :: specNonSentinelEntries t := by
        simp [specNonSentinelEntries, List.filter, hv]
      rw [hfil, lookup_cons_eq_ite]
      by_cases hf : f = k
      · rw [if_pos hf]
        unfold nonSentinelLookup
        rw [lookup_cons_eq_ite, if_pos hf]
        simp [hv]
      · rw [if_neg hf]
        have h1 : nonSentinelLookup ((k, v) :: t) f = nonSentinelLookup t f := by
          unfold nonSentinelLookup
          rw [lookup_cons_eq_ite, if_neg hf]
        rw [h1]
        exact ih hndt

/-- Joining three strings with single spaces. -/
theorem intercalate_three (a b c : String) :
    String.intercalate " " [a, b, c] = a ++ " " ++ b ++ " " ++ c := rfl

/-- With the configured non-empty prefix and suffix, `build_prompt` is the
prefix, one core descriptor block — the joined phrases, or the literal
"person" exactly when no phrase was produced — and the suffix, separated by
single spaces. -/
theorem build_prompt_frame (S : List (String × String)) :
    mapper.build_prompt S =
      PROMPT_PREFIX_STR ++ " " ++
        (if mapper.build_descriptors S = [] then "person"
         else String.intercalate " " (mapper.build_descriptors S)) ++
        " " ++ PROMPT_SUFFIX_STR := by
  by_cases hd : mapper.build_descriptors S = []
  · unfold FormToPromptMapper.build_prompt
    rw [hd]
    decide
  · have hp : mapper.prefixText ≠ "" := by decide
    have hs : mapper.suffixText ≠ "" := by decide
    simp only [FormToPromptMapper.build_prompt]
    rw [if_pos hp, if_pos hd, if_pos hs]
    rw [if_neg (by simp), if_neg hd]
    rw [show ([mapper.prefixText] ++ [String.intercalate " " (mapper.build_descriptors S)]
          ++ [mapper.suffixText] : List String) =
        [mapper.prefixText, String.intercalate " " (mapper.build_descriptors S),
          mapper.suffixText] from by simp]
    rw [intercalate_three]
    rfl

/-! ## Claim theorems for the prompt mapper -/

/-- C5: descriptor phrases appear in the canonical field order
[age, gender, ethnicity, education, employment, income] first, then any
remaining field ids in schema order (vacuously: the schema has exactly the
six canonical fields, so other entries emit nothing), independent of the
selections map's insertion order — permuting a duplicate-free map leaves the
prompt unchanged — and stable across repeated calls; concretely, a map
inserted as income-then-age still yields the age phrase "child" before the
income phrase "wealthy". -/
theorem C5_canonical_order (S T : List (String × String))
    (hnd : (S.map Prod.fst).Nodup) (hperm : S.Perm T) :
    mapper.build_prompt S = mapper.build_prompt T ∧
    mapper.build_prompt [("income", "$200,000+"), ("age", "Child")] =
      "professional portrait photograph of a child wealthy person, high quality, detailed, realistic, photographic style" := by
  constructor
  · apply build_prompt_eq_of_ns_eq
    intro f
    unfold nonSentinelLookup
    rw [perm_lookup_eq hperm hnd f]
  · decide

/-- Witness for C5 at the claim's own example map, permuted. -/
theorem C5_canonical_order_witness :
    ((([("income", "$200,000+"), ("age", "Child")] :
        List (String × String)).map Prod.fst).Nodup ∧
     ([("income", "$200,000+"), ("age", "Child")] :
        List (String × String)).Perm [("age", "Child"), ("income", "$200,000+")]) ∧
    (mapper.build_prompt [("income", "$200,000+"), ("age", "Child")] =
       mapper.build_prompt [("age", "Child"), ("income", "$200,000+")] ∧
     mapper.build_prompt [("income", "$200,000+"), ("age", "Child")] =
       "professional portrait photograph of a child wealthy person, high quality, detailed, realistic, photographic style") :=
  ⟨⟨by decide, by decide⟩,
    C5_canonical_order [("income", "$200,000+"), ("age", "Child")]
      [("age", "Child"), ("income", "$200,000+")] (by decide) (by decide)⟩

/-- C6: selections maps that differ only in sentinel entries — their
sentinel-filtered entries coincide — produce the same prompt; sentinel
fields contribute nothing. -/
theorem C6_sentinel_invariant (S T : List (String × String))
    (hS : (S.map Prod.fst).Nodup) (hT : (T.map Prod.fst).Nodup)
    (h : specNonSentinelEntries S = specNonSentinelEntries T) :
    mapper.build_prompt S = mapper.build_prompt T := by
  apply build_prompt_eq_of_ns_eq
  intro f
  rw [ns_lookup_eq_filter_lookup S hS f, ns_lookup_eq_filter_lookup T hT f, h]

/-- Witness for C6 at the claim's own example: a sentinel gender entry next
to an Asian ethnicity entry changes nothing. -/
theorem C6_sentinel_invariant_witness :
    ((([("gender", "?"), ("ethnicity", "Asian")] :
        List (String × String)).map Prod.fst).Nodup ∧
     (([("ethnicity", "Asian")] : List (String × String)).map Prod.fst).Nodup ∧
     specNonSentinelEntries [("gender", "?"), ("ethnicity", "Asian")] =
       specNonSentinelEntries [("ethnicity", "Asian")]) ∧
    mapper.build_prompt [("gender", "?"), ("ethnicity", "Asian")] =
      mapper.build_prompt [("ethnicity", "Asian")] :=
  ⟨⟨by decide, by decide, by decide⟩,
    C6_sentinel_invariant [("gender", "?"), ("ethnicity", "Asian")]
      [("ethnicity", "Asian")] (by decide) (by decide) (by decide)⟩

/-- C7: every prompt is the configured prefix, a core descriptor block, and
the configured suffix joined by single spaces, the core being the literal
"person" exactly when no phrases were produced; on the empty form the result
is prefix, "person", suffix with single spaces. -/
theorem C7_prompt_frame (S : List (String × String)) :
    mapper.build_prompt S =
      PROMPT_PREFIX_STR ++ " " ++
        (if mapper.build_descriptors S = [] then "person"
         else String.intercalate " " (mapper.build_descriptors S)) ++
        " " ++ PROMPT_SUFFIX_STR ∧
    mapper.build_prompt [] =
      PROMPT_PREFIX_STR ++ " " ++ "person" ++ " " ++ PROMPT_SUFFIX_STR :=
  ⟨build_prompt_frame S, by decide⟩

/-! ## Claim theorems for the application state -/

/-- C10: the freshly constructed state has empty form data, empty prompt, no
image, a lowered generating flag, idle api status, no generation timestamp,
and hence no selections. -/
theorem C10_initial_state :
    ApplicationState.init.get_form_data = [] ∧
    ApplicationState.init.get_current_prompt = "" ∧
    ApplicationState.init.get_current_image = none ∧
    ApplicationState.init.generating_image = false ∧
    ApplicationState.init.get_api_status = "idle" ∧
    ApplicationState.init.get_last_generation_time = none ∧
    ApplicationState.init.has_any_selections = false := by
  decide

/-- C4 fails on the code: `set_form_data` stores the given map verbatim, so
after storing a map holding only a sentinel entry, `get_form_data` still
holds that sentinel entry, while the non-sentinel entries of the input form
the empty map. -/
theorem C4_counterexample :
    (ApplicationState.init.set_form_data [("age", "?")]).get_form_data =
      [("age", "?")] ∧
    specNonSentinelEntries [("age", "?")] = [] ∧
    ((ApplicationState.init.set_form_data [("age", "?")]).get_form_data).lookup "age" =
      some "?" ∧
    (specNonSentinelEntries [("age", "?")]).lookup "age" = none := by
  decide

/-- C4 amended: after `set_form_data(X)`, `get_form_data()` returns a map
equal to X itself, sentinel entries included; the state performs no
normalization. -/
theorem C4_set_form_data_verbatim (st : ApplicationState)
    (X : List (String × String)) :
    (st.set_form_data X).get_form_data = X := rfl

/-- C3: the seed operations (modelled from the spec, the randomness source
being the `r` parameter): `set_current_seed` then `get_current_seed` round
trips; `generate_new_random_seed` returns the drawn value, stores it so an
immediately following `get_current_seed` yields that same value, and — when
the drawn value is fresh — the stored seed differs from the previous one. -/
theorem C3_seed_operations (st : ApplicationState) (r : Int)
    (hrange : 0 < r) (hfresh : r ≠ st.get_current_seed) :
    (∀ n : Int, (st.set_current_seed n).get_current_seed = n) ∧
    (st.generate_new_random_seed r).1 = r ∧
    (st.generate_new_random_seed r).2.get_current_seed =
      (st.generate_new_random_seed r).1 ∧
    (st.generate_new_random_seed r).2.get_current_seed ≠ st.get_current_seed := by
  refine ⟨fun n => rfl, rfl, rfl, ?_⟩
  simpa [ApplicationState.generate_new_random_seed, ApplicationState.get_current_seed]
    using hfresh

/-- Witness for C3 at the initial state (seed 888) and drawn value 12345. -/
theorem C3_seed_operations_witness :
    ((0 : Int) < 12345 ∧ (12345 : Int) ≠ ApplicationState.init.get_current_seed) ∧
    ((∀ n : Int, (ApplicationState.init.set_current_seed n).get_current_seed = n) ∧
     (ApplicationState.init.generate_new_random_seed 12345).1 = 12345 ∧
     (ApplicationState.init.generate_new_random_seed 12345).2.get_current_seed =
       (ApplicationState.init.generate_new_random_seed 12345).1 ∧
     (ApplicationState.init.generate_new_random_seed 12345).2.get_current_seed ≠
       ApplicationState.init.get_current_seed) :=
  ⟨⟨by decide, by decide⟩,
    C3_seed_operations ApplicationState.init 12345 (by decide) (by decide)⟩

/-- Running operations none of which is `set_api_status` leaves the api
status untouched. -/
theorem runOps_api_status (ops : List StateOp) :
    ∀ st : ApplicationState, ops.all (fun op => !op.isSetApiStatus) = true →
      (runOps ops st).get_api_status = st.get_api_status := by
  induction ops with
  | nil => intro st _; rfl
  | cons op t ih =>
    intro st h
    simp only [List.all_cons, Bool.and_eq_true] at h
    have hop : (op.apply st).get_api_status = st.get_api_status := by
      cases op
      case setApiStatus s => simp [StateOp.isSetApiStatus] at h
      all_goals rfl
    rw [show runOps (op :: t) st = runOps t (op.apply st) from rfl,
      ih (op.apply st) h.2, hop]

/-- C9 fails on the code: the MainScreen generation flow raises the
generating flag without ever touching `api_status`, so the reachable state
it produces has `generating_image = true` while `api_status` is still
"idle", not "generating". -/
theorem C9_counterexample :
    (runOps mainScreenGenerationSeq ApplicationState.init).generating_image = true ∧
    ¬ (runOps mainScreenGenerationSeq ApplicationState.init).get_api_status =
        "generating" := by
  decide

/-- C9 amended: `set_generating_image` leaves `api_status` unchanged, and an
operation sequence that never calls `set_api_status` — the MainScreen
generation flow among them — keeps `api_status` at its initial "idle", so
`generating_image = true` does not establish `api_status = "generating"`. -/
theorem C9_status_decoupled (ops : List StateOp)
    (h : ops.all (fun op => !op.isSetApiStatus) = true) :
    (runOps ops ApplicationState.init).get_api_status = "idle" ∧
    ∀ (st : ApplicationState) (b : Bool),
      (st.set_generating_image b).get_api_status = st.get_api_status ∧
      (st.set_generating_image b).generating_image = b :=
  ⟨runOps_api_status ops ApplicationState.init h, fun _ _ => ⟨rfl, rfl⟩⟩

/-- Witness for C9's amended statement at the MainScreen sequence. -/
theorem C9_status_decoupled_witness :
    mainScreenGenerationSeq.all (fun op => !op.isSetApiStatus) = true ∧
    ((runOps mainScreenGenerationSeq ApplicationState.init).get_api_status = "idle" ∧
     ∀ (st : ApplicationState) (b : Bool),
       (st.set_generating_image b).get_api_status = st.get_api_status ∧
       (st.set_generating_image b).generating_image = b) :=
  ⟨by decide, C9_status_decoupled mainScreenGenerationSeq (by decide)⟩

/-! ## Claim theorems for the generation client -/

/-- Every callback the worker performs is guarded by the immediately
preceding activity check, so a cancellation that completes before the
worker's post-request check (action index 2) suppresses both callbacks on
every path. -/
theorem workerRun_eq_nil_of_cancel_le_two (k : Nat) (hk : k ≤ 2)
    (reqResult : Except String (Option ResponseData)) (osRaises : Bool)
    (osErrMsg : String) (b64 : String → String) :
    workerRun (some k) reqResult osRaises osErrMsg b64 = [] := by
  interval_cases k <;> rcases reqResult with e | rd <;>
    simp [workerRun, activeAtStep]

/-- C1 fails on the code: the final activity check (line 108) and the
`on_success` invocation are separate actions with the client lock released
in between, so a `cancel_pending_requests` that completes between them —
cancellation index 4, with the job still active at all four checks — returns
while `on_success` still fires afterwards: the run emits a callback at
action index 4, not strictly before the cancellation index. -/
theorem C1_counterexample :
    workerRun (some 4) (.ok (some { images := some ["AAAA"] })) false "cb"
        (fun s => s) = [(4, .success "AAAA")] ∧
    ¬ (∀ ev ∈ workerRun (some 4) (.ok (some { images := some ["AAAA"] })) false "cb"
        (fun s => s), ev.1 < 4) := by
  constructor
  · decide
  · decide

/-- C1 amended: cancellation suppresses every callback of a job provided it
completes before the worker's post-request activity check; only in the
window between a job's final passed check and the callback invocation can a
callback still fire after `cancel_pending_requests` returns. -/
theorem C1_cancel_suppresses_callbacks (k : Nat) (hk : k ≤ 2)
    (reqResult : Except String (Option ResponseData)) (osRaises : Bool)
    (osErrMsg : String) (b64 : String → String) :
    workerRun (some k) reqResult osRaises osErrMsg b64 = [] :=
  workerRun_eq_nil_of_cancel_le_two k hk reqResult osRaises osErrMsg b64

/-- Witness for C1's amended statement: cancellation completing during the
request suppresses the success callback. -/
theorem C1_cancel_suppresses_callbacks_witness :
    (2 : Nat) ≤ 2 ∧
    workerRun (some 2) (.ok (some { images := some ["AAAA"] })) false "cb"
      (fun s => s) = [] :=
  ⟨by decide,
    C1_cancel_suppresses_callbacks 2 (by decide)
      (.ok (some { images := some ["AAAA"] })) false "cb" (fun s => s)⟩

/-- C2 fails on the code: `on_success` is invoked inside the worker's `try`
block, so when the supplied `on_success` itself raises, the `except` clause
finds the job still active and invokes `on_error` as well — two callback
invocations for one uncancelled job, not exactly one. -/
theorem C2_counterexample :
    workerRun none (.ok (some { images := some ["AAAA"] })) true "callback boom"
        (fun s => s) =
      [(4, .success "AAAA"), (6, .error "callback boom")] ∧
    (workerRun none (.ok (some { images := some ["AAAA"] })) true "callback boom"
        (fun s => s)).length ≠ 1 := by
  constructor
  · decide
  · decide

/-- C2 amended: an uncancelled job whose `on_success` does not raise invokes
exactly one callback exactly once; when `on_success` raises, `on_error` is
additionally invoked with the raised exception; a job cancelled before its
post-request check invokes neither. -/
theorem C2_exactly_one_callback (k : Nat) (hk : k ≤ 2) :
    (∀ (reqResult : Except String (Option ResponseData)) (osErrMsg : String)
        (b64 : String → String),
      (workerRun none reqResult false osErrMsg b64).length = 1) ∧
    (∀ (img : String) (rest : List String) (osErrMsg : String)
        (b64 : String → String),
      workerRun none (.ok (some { images := some (img :: rest) })) true osErrMsg b64 =
        [(4, .success (b64 img)), (6, .error osErrMsg)]) ∧
    (∀ (reqResult : Except String (Option ResponseData)) (osRaises : Bool)
        (osErrMsg : String) (b64 : String → String),
      workerRun (some k) reqResult osRaises osErrMsg b64 = []) := by
  refine ⟨?_, ?_, ?_⟩
  · intro r osErrMsg b64
    rcases r with e | rd
    · rfl
    · rcases rd with _ | ⟨imgs⟩
      · rfl
      · rcases imgs with _ | l
        · rfl
        · rcases l with _ | ⟨img, rest⟩
          · rfl
          · rfl
  · intro img rest osErrMsg b64
    rfl
  · intro r osRaises osErrMsg b64
    exact workerRun_eq_nil_of_cancel_le_two k hk r osRaises osErrMsg b64

/-- Witness for C2's amended statement at cancellation index 0. -/
theorem C2_exactly_one_callback_witness :
    (0 : Nat) ≤ 2 ∧
    ((∀ (reqResult : Except String (Option ResponseData)) (osErrMsg : String)
        (b64 : String → String),
      (workerRun none reqResult false osErrMsg b64).length = 1) ∧
    (∀ (img : String) (rest : List String) (osErrMsg : String)
        (b64 : String → String),
      workerRun none (.ok (some { images := some (img :: rest) })) true osErrMsg b64 =
        [(4, .success (b64 img)), (6, .error osErrMsg)]) ∧
    (∀ (reqResult : Except String (Option ResponseData)) (osRaises : Bool)
        (osErrMsg : String) (b64 : String → String),
      workerRun (some 0) reqResult osRaises osErrMsg b64 = [])) :=
  ⟨by decide, C2_exactly_one_callback 0 (by decide)⟩

/-- One unrolling of the retry loop. -/
theorem makeApiGo_succ (activeAt : Nat → Bool) (outcome : Nat → AttemptOutcome)
    (i fuel : Nat) :
    makeApiGo activeAt outcome i (fuel + 1) =
      if !activeAt i then (.ok none, 0, 0)
      else
        match outcome i with
        | .ok d => (.ok (some d), 1, 0)
        | .badStatus c =>
          if i = MAX_RETRIES - 1 then (.error (STATUS_ERR_MSG c), 1, 0)
          else
            let rest := makeApiGo activeAt outcome (i + 1) fuel
            (rest.1, rest.2.1 + 1, rest.2.2 + if activeAt i then 1 else 0)
        | .timeout =>
          if i = MAX_RETRIES - 1 then (.error TIMEOUT_ERR_MSG, 1, 0)
          else
            let rest := makeApiGo activeAt outcome (i + 1) fuel
            (rest.1, rest.2.1 + 1, rest.2.2 + if activeAt i then 1 else 0)
        | .connError =>
          if i = MAX_RETRIES - 1 then (.error CONN_ERR_MSG, 1, 0)
          else
            let rest := makeApiGo activeAt outcome (i + 1) fuel
            (rest.1, rest.2.1 + 1, rest.2.2 + if activeAt i then 1 else 0) := rfl

/-- The retry loop performs at most `fuel` HTTP attempts. -/
theorem makeApiGo_attempts_le (activeAt : Nat → Bool) (outcome : Nat → AttemptOutcome) :
    ∀ fuel i : Nat, (makeApiGo activeAt outcome i fuel).2.1 ≤ fuel := by
  intro fuel
  induction fuel with
  | zero => intro i; simp [makeApiGo]
  | succ n ih =>
    intro i
    have hrec := ih (i + 1)
    unfold makeApiGo
    cases hai : activeAt i <;> cases ho : outcome i <;>
      by_cases hi : i = MAX_RETRIES - 1 <;> simp [hai, hi] <;> omega

/-- C8: the request loop retries timeouts, connection errors and non-200
statuses; with the first two attempts failing and the third returning 200
with body `d` it returns the parsed body after exactly 3 attempts and 2
fixed-delay sleeps, whereupon the still-active worker performs a single
`on_success` with the decoded first image and no `on_error`; a raising
request reaches `on_error` exactly while the job is still active; when every
attempt fails the loop raises; and the attempt count never exceeds
`MAX_RETRIES`. -/
theorem C8_retry_policy (outcome : Nat → AttemptOutcome) (d : ResponseData)
    (h0 : (outcome 0).isFailure = true) (h1 : (outcome 1).isFailure = true)
    (h2 : outcome 2 = .ok d) :
    makeApiRequest allActive outcome = (.ok (some d), 3, 2) ∧
    (∀ (img : String) (rest : List String) (osErrMsg : String)
        (b64 : String → String),
      workerRun none (.ok (some { images := some (img :: rest) })) false osErrMsg b64 =
        [(4, .success (b64 img))]) ∧
    (∀ (e osErrMsg : String) (b64 : String → String),
      workerRun none (.error e) false osErrMsg b64 = [(3, .error e)]) ∧
    (∀ (e osErrMsg : String) (b64 : String → String) (k : Nat), k ≤ 2 →
      workerRun (some k) (.error e) false osErrMsg b64 = []) ∧
    (∀ f : Nat → AttemptOutcome,
      (∀ i, i < MAX_RETRIES → (f i).isFailure = true) →
      ∃ msg, (makeApiRequest allActive f).1 = .error msg) ∧
    (∀ f : Nat → AttemptOutcome, (makeApiRequest allActive f).2.1 ≤ MAX_RETRIES) := by
  have e2 : makeApiGo allActive outcome 2 1 = (.ok (some d), 1, 0) := by
    rw [makeApiGo_succ]
    simp [allActive, h2]
  have e1 : makeApiGo allActive outcome 1 2 = (.ok (some d), 2, 1) := by
    rcases ho : outcome 1 with d1 | c | _ | _
    · rw [ho] at h1; simp [AttemptOutcome.isFailure] at h1
    all_goals
      rw [makeApiGo_succ]
      simp [allActive, ho, MAX_RETRIES, e2]
  have e0 : makeApiGo allActive outcome 0 3 = (.ok (some d), 3, 2) := by
    rcases ho : outcome 0 with d1 | c | _ | _
    · rw [ho] at h0; simp [AttemptOutcome.isFailure] at h0
    all_goals
      rw [makeApiGo_succ]
      simp [allActive, ho, MAX_RETRIES, e1]
  refine ⟨e0, fun img rest osErrMsg b64 => rfl, fun e osErrMsg b64 => rfl,
    fun e osErrMsg b64 k hk =>
      workerRun_eq_nil_of_cancel_le_two k hk (.error e) false osErrMsg b64,
    ?_, fun f => makeApiGo_attempts_le allActive f MAX_RETRIES 0⟩
  intro f hf
  have hf0 := hf 0 (by decide)
  have hf1 := hf 1 (by decide)
  have hf2 := hf 2 (by decide)
  have g2 : ∃ msg, (makeApiGo allActive f 2 1).1 = .error msg := by
    rcases ho : f 2 with d2 | c | _ | _
    · rw [ho] at hf2; simp [AttemptOutcome.isFailure] at hf2
    · exact ⟨STATUS_ERR_MSG c, by rw [makeApiGo_succ]; simp [allActive, ho, MAX_RETRIES]⟩
    · exact ⟨TIMEOUT_ERR_MSG, by rw [makeApiGo_succ]; simp [allActive, ho, MAX_RETRIES]⟩
    · exact ⟨CONN_ERR_MSG, by rw [makeApiGo_succ]; simp [allActive, ho, MAX_RETRIES]⟩
  obtain ⟨msg, hmsg⟩ := g2
  have g1 : (makeApiGo allActive f 1 2).1 = .error msg := by
    rcases ho : f 1 with d1 | c | _ | _
    · rw [ho] at hf1; simp [AttemptOutcome.isFailure] at hf1
    all_goals
      rw [makeApiGo_succ]
      simp [allActive, ho, MAX_RETRIES, hmsg]
  have g0 : (makeApiGo allActive f 0 3).1 = .error msg := by
    rcases ho : f 0 with d0 | c | _ | _
    · rw [ho] at hf0; simp [AttemptOutcome.isFailure] at hf0
    all_goals
      rw [makeApiGo_succ]
      simp [allActive, ho, MAX_RETRIES, g1]
  exact ⟨msg, g0⟩

/-- The claim's own retry scenario: 502 twice, then 200. -/
def retryWitnessOutcome : Nat → AttemptOutcome :=
  fun i => if i = 2 then .ok { images := some ["AAAA"] } else .badStatus 502

/-- Witness for C8 at a 502, 502, 200 attempt sequence. -/
theorem C8_retry_policy_witness :
    ((retryWitnessOutcome 0).isFailure = true ∧
     (retryWitnessOutcome 1).isFailure = true ∧
     retryWitnessOutcome 2 = .ok { images := some ["AAAA"] }) ∧
    (makeApiRequest allActive retryWitnessOutcome =
        (.ok (some { images := some ["AAAA"] }), 3, 2) ∧
    (∀ (img : String) (rest : List String) (osErrMsg : String)
        (b64 : String → String),
      workerRun none (.ok (some { images := some (img :: rest) })) false osErrMsg b64 =
        [(4, .success (b64 img))]) ∧
    (∀ (e osErrMsg : String) (b64 : String → String),
      workerRun none (.error e) false osErrMsg b64 = [(3, .error e)]) ∧
    (∀ (e osErrMsg : String) (b64 : String → String) (k : Nat), k ≤ 2 →
      workerRun (some k) (.error e) false osErrMsg b64 = []) ∧
    (∀ f : Nat → AttemptOutcome,
      (∀ i, i < MAX_RETRIES → (f i).isFailure = true) →
      ∃ msg, (makeApiRequest allActive f).1 = .error msg) ∧
    (∀ f : Nat → AttemptOutcome, (makeApiRequest allActive f).2.1 ≤ MAX_RETRIES)) :=
  ⟨⟨by decide, by decide, by decide⟩,
    C8_retry_policy retryWitnessOutcome { images := some ["AAAA"] }
      (by decide) (by decide) (by decide)⟩
